import Mathlib

/-!
Verification development for the `react-query-external-sync` state
synchronization protocol.  The definitions below are a shallow embedding of
the protocol-relevant slice of the repository:

* `Dehydrate` / `dehydrateQuery` / `dehydrateMutation` — `src/react-query-external-sync/hydration.ts`
* `shouldProcessMessage` and `handleQueryAction` — the `query-action` handler
  of `src/react-query-external-sync/useSyncQueriesExternal.ts`
* `handleStorageOperation` / `handleStorageUpdate` — `src/react-query-external-sync/utils/storageHandlers.ts`
* `updateQueries` — the strict change detector of `useAllQueries`
  (`utils/storageHandlers.ts` sibling file / `unnamed/part_014`)

JavaScript values carried by the protocol (query data, query keys) are
embedded as the inductive `JSData`; the JS value `undefined` is represented
by `Option.none` at every use site.  The external cache collaborator
(`@tanstack/query-core`) is not part of this repository; its entry-level
operations (`fetch`, `cancel`, `setState`, `setQueryData`, `invalidate`,
`reset`, `remove`, cache `clear`) are modelled from the spec's collaborator
interface (spec sections 4.4 and 6) as explicit state transformers.
-/

/-- JSON-transmissible JavaScript value.  `undefined` is not a constructor:
it is represented as `Option.none` wherever the source can hold it. -/
inductive JSData where
  | null : JSData
  | str (s : String) : JSData
  | num (n : Int) : JSData
  | bool (b : Bool) : JSData
  | arr (xs : List JSData) : JSData
  | obj (fields : List (String × JSData)) : JSData
deriving Repr

mutual

/-- Structural deep equality on `JSData`, the model of `fast-equals`'
`deepEqual` on transmissible values. -/
def jsDataEq : JSData → JSData → Bool
  | .null, .null => true
  | .str a, .str b => a == b
  | .num a, .num b => a == b
  | .bool a, .bool b => a == b
  | .arr xs, .arr ys => jsDataListEq xs ys
  | .obj xs, .obj ys => jsDataObjEq xs ys
  | _, _ => false

/-- Pointwise deep equality on arrays. -/
def jsDataListEq : List JSData → List JSData → Bool
  | [], [] => true
  | x :: xs, y :: ys => jsDataEq x y && jsDataListEq xs ys
  | _, _ => false

/-- Pointwise deep equality on object field lists. -/
def jsDataObjEq : List (String × JSData) → List (String × JSData) → Bool
  | [], [] => true
  | (k, v) :: xs, (l, w) :: ys => k == l && jsDataEq v w && jsDataObjEq xs ys
  | _, _ => false

end

instance : BEq JSData := ⟨jsDataEq⟩

/-- Model of the JSON escaping `JSON.stringify` applies to string content
(backslash and double quote; control characters are not produced by the
inputs considered here). -/
def jsonEscape (s : String) : String :=
  s.data.foldl
    (fun acc c =>
      if c = '\\' then acc ++ "\\\\"
      else if c = '\x22' then acc ++ "\\\x22"
      else acc.push c)
    ""

mutual

/-- Model of `JSON.stringify` on transmissible values, used by
`handleStorageOperation` to serialize non-primitive data before a backend
write. -/
def jsonStringify : JSData → String
  | .null => "null"
  | .str s => "\x22" ++ jsonEscape s ++ "\x22"
  | .num n => toString n
  | .bool b => if b then "true" else "false"
  | .arr xs => "[" ++ jsonStringifyList xs ++ "]"
  | .obj fields => "\x7b" ++ jsonStringifyObj fields ++ "\x7d"

/-- Comma-separated serialization of array elements. -/
def jsonStringifyList : List JSData → String
  | [] => ""
  | [x] => jsonStringify x
  | x :: xs => jsonStringify x ++ "," ++ jsonStringifyList xs

/-- Comma-separated serialization of object fields. -/
def jsonStringifyObj : List (String × JSData) → String
  | [] => ""
  | [(k, v)] => "\x22" ++ jsonEscape k ++ "\x22:" ++ jsonStringify v
  | (k, v) :: fs =>
      "\x22" ++ jsonEscape k ++ "\x22:" ++ jsonStringify v ++ "," ++ jsonStringifyObj fs

end

/-- Data-availability status of a cache entry (`pending | success | error`). -/
inductive QueryStatus where
  | pending | success | error
deriving DecidableEq, Repr

/-- Fetch status of a cache entry (`fetching | paused | idle`). -/
inductive FetchStatus where
  | fetching | paused | idle
deriving DecidableEq, Repr

/-- Opaque reference to a JavaScript function value.  `neverSettling` is the
promise-returning `queryFn` installed by ACTION-TRIGGER-LOADING that never
resolves; `userFn id` stands for any application-supplied fetch function. -/
inductive QueryFnRef where
  | userFn (id : Nat)
  | neverSettling
deriving DecidableEq, Repr

/-- Slice of the query options relevant to the handlers: the fetch function
and the garbage-collection time that ACTION-TRIGGER-LOADING overrides. -/
structure QueryOptions where
  queryFn : Option QueryFnRef
  gcTime : Option Int
deriving DecidableEq, Repr

/-- Value of `state.fetchMeta`.  The handlers smuggle the pre-simulation
options through the field `__previousQueryOptions` of this object, here
`prevOptions`. -/
structure FetchMeta where
  prevOptions : Option QueryOptions
deriving DecidableEq, Repr

/-- State of one cache entry, the fields read or written by the embedded
code.  `data = none` is the JS `undefined`. -/
structure QueryState where
  data : Option JSData
  status : QueryStatus
  fetchStatus : FetchStatus
  error : Option String
  fetchMeta : Option FetchMeta
  isInvalidated : Bool
  fetchFailureReason : Option String
  dataUpdatedAt : Nat
deriving Repr

/-- Live observer of a query; its options still carry the application's
fetch function. -/
structure Observer where
  options : QueryOptions
deriving Repr

/-- One cache entry of the external query cache. -/
structure Query where
  queryHash : String
  queryKey : List JSData
  state : QueryState
  options : QueryOptions
  observers : List Observer
  meta : Option (List (String × JSData))
deriving Repr

/-- In-flight mutation; its `state` is copied verbatim by dehydration, so it
is kept as an opaque transmissible value. -/
structure Mutation where
  mutationId : Nat
  mutationKey : Option (List JSData)
  state : JSData
  scope : Option String
  meta : Option (List (String × JSData))
deriving Repr

/-- The query client as seen by the embedded code: the two caches plus the
non-cache configuration (`getDefaultOptions` is read by `checkVersion`), so
that "pure function of current cache content" is a non-trivial statement. -/
structure QueryClient where
  queryCache : List Query
  mutationCache : List Mutation
  defaultOptions : QueryOptions
deriving Repr

/-- Model of `queryClient.getQueryCache().get(queryHash)`: resolve a hash to
its cache entry. -/
def getQueryByHash (cache : List Query) (h : String) : Option Query :=
  cache.find? (fun q => q.queryHash == h)

/-- Model of updating the entry with the given hash in place (the handlers
mutate `activeQuery`, which lives inside the cache). -/
def replaceQueryByHash (cache : List Query) (h : String) (f : Query → Query) :
    List Query :=
  cache.map (fun q => if q.queryHash == h then f q else q)

/-- Model of query-filter matching used by `invalidateQueries({queryKey})`:
the filter key is an initial segment of the entry key (the collaborator's
default non-exact matching). -/
def keyFilterMatch : List JSData → List JSData → Bool
  | [], _ => true
  | _, [] => false
  | f :: fs, k :: ks => jsDataEq f k && keyFilterMatch fs ks

/-- Exact structural key equality, used by `removeQueries({queryKey, exact: true})`
and by `setQueryData`'s entry lookup. -/
def keyExactMatch (a b : List JSData) : Bool :=
  jsDataListEq a b

/-- Modelled from the spec: collaborator `invalidate(filter)` marks every
matching entry stale (`isInvalidated`), letting refetch-on-stale policy
apply. -/
def invalidateQueriesByKey (cache : List Query) (filterKey : List JSData) :
    List Query :=
  cache.map (fun q =>
    if keyFilterMatch filterKey q.queryKey then
      { q with state := { q.state with isInvalidated := true } }
    else q)

/-- Modelled from the spec: collaborator `setData(key, value, {updatedAt})`
overwrites the cached value of the exactly-matching entry, stamping
`updatedAt`; with `undefined` data it is a no-op, and with no matching entry
it creates one. -/
def setQueryData (cache : List Query) (key : List JSData) (data : Option JSData)
    (now : Nat) : List Query :=
  match data with
  | none => cache
  | some v =>
    if (cache.find? (fun q => keyExactMatch q.queryKey key)).isSome then
      cache.map (fun q =>
        if keyExactMatch q.queryKey key then
          { q with state := { q.state with
              data := some v, status := .success, error := none,
              dataUpdatedAt := now } }
        else q)
    else
      cache ++ [{ queryHash := jsonStringify (.arr key), queryKey := key,
                  state := { data := some v, status := .success,
                             fetchStatus := .idle, error := none,
                             fetchMeta := none, isInvalidated := false,
                             fetchFailureReason := none, dataUpdatedAt := now },
                  options := { queryFn := none, gcTime := none },
                  observers := [], meta := none }]

/-- Modelled from the spec: collaborator `reset(entry)` restores the entry to
its initial pre-fetch state. -/
def resetQuery (q : Query) : Query :=
  { q with state := { data := none, status := .pending, fetchStatus := .idle,
                      error := none, fetchMeta := none, isInvalidated := false,
                      fetchFailureReason := none, dataUpdatedAt := 0 } }

/-- Modelled from the spec: collaborator `remove(entry)` evicts the entry
from the cache. -/
def removeQueryByHash (cache : List Query) (h : String) : List Query :=
  cache.filter (fun q => !(q.queryHash == h))

/-- Modelled from the spec: collaborator `removeQueries({queryKey, exact: true})`
evicts exactly the entries with that key. -/
def removeQueriesByExactKey (cache : List Query) (key : List JSData) :
    List Query :=
  cache.filter (fun q => !(keyExactMatch q.queryKey key))

/-- Modelled from the spec: entry-level `fetch(options)` updates the entry's
options (query-core's `setOptions`) and starts a fetch — fetch status becomes
`fetching` and `fetchMeta` is reset (no meta is ever passed by this code).
No fetch completes inside the model: completion would be a separate cache
notification, and every claim here assumes none intervenes. -/
def Query.fetchWith (q : Query) (opts : QueryOptions) : Query :=
  { q with options := opts,
           state := { q.state with fetchStatus := .fetching, fetchMeta := none } }

/-- Modelled from the spec: entry-level `fetch()` without arguments (used by
ACTION-REFETCH) keeps the stored options. -/
def Query.fetchCurrent (q : Query) : Query :=
  { q with state := { q.state with fetchStatus := .fetching, fetchMeta := none } }

/-- Modelled from the spec: entry-level `cancel({silent: true})` stops the
in-flight fetch without surfacing an error; fetch status returns to `idle`. -/
def Query.cancelSilent (q : Query) : Query :=
  { q with state := { q.state with fetchStatus := .idle } }

/-- Severity of a log line; `info` is `console.log`, gated by `enableLogs`,
while warnings and errors always surface. -/
inductive LogLevel where
  | info | warn | error
deriving DecidableEq, Repr

/-- One log line, identified by severity and a stable tag. -/
structure LogEvent where
  level : LogLevel
  tag : String
deriving DecidableEq, Repr

/-- Embedding of `shouldProcessMessage` from `useSyncQueriesExternal.ts`:
process when the target id is this device's id or the sentinel `"All"`. -/
def shouldProcessMessage (targetDeviceId : String) (currentDeviceId : String) :
    Bool :=
  targetDeviceId == currentDeviceId || targetDeviceId == "All"

/-- Query actions of the `query-action` protocol message. -/
inductive QueryAction where
  | refetch
  | invalidate
  | reset
  | remove
  | dataUpdate
  | triggerError
  | restoreError
  | triggerLoading
  | restoreLoading
  | onlineManagerOnline
  | onlineManagerOffline
  | internalSuccess
  | clearMutationCache
  | clearQueryCache
deriving DecidableEq, Repr

/-- Inbound `CommandMessage` for the `query-action` event.  Its `deviceId`
field is the *target* device id. -/
structure QueryActionMessage where
  queryHash : String
  queryKey : List JSData
  data : Option JSData
  action : QueryAction
  deviceId : String
deriving Repr

/-- Device-side world the handler can touch: the query client plus the
process-wide online flag of the online manager. -/
structure World where
  client : QueryClient
  online : Bool
deriving Repr

/-- Embedding of the ACTION-TRIGGER-LOADING branch: stash the current
options, start a fetch whose `queryFn` never settles with garbage collection
disabled (`gcTime: -1`), then force `data: undefined`, `status: "pending"`
and record the stash in `fetchMeta.__previousQueryOptions`. -/
def triggerLoading (q : Query) : Query :=
  let previousQueryOptions := q.options
  let q1 := q.fetchWith { previousQueryOptions with
    queryFn := some .neverSettling, gcTime := some (-1) }
  { q1 with state := { q1.state with
      data := none,
      status := .pending,
      fetchMeta := some { prevOptions := some previousQueryOptions } } }

/-- Embedding of the ACTION-RESTORE-LOADING branch: read the stashed options
out of `fetchMeta`, cancel the in-flight fetch silently, write back the
captured state with `fetchStatus: "idle"` and `fetchMeta: null`, and if a
stash was present re-issue a real fetch with it. -/
def restoreLoading (q : Query) : Query :=
  let previousState := q.state
  let previousOptions :=
    match q.state.fetchMeta with
    | some m => m.prevOptions
    | none => none
  let q1 := q.cancelSilent
  let q2 := { q1 with state := { previousState with
    fetchStatus := .idle, fetchMeta := none } }
  match previousOptions with
  | some opts => q2.fetchWith opts
  | none => q2

/-- Embedding of the ACTION-TRIGGER-ERROR branch: force `status: "error"`
with a synthetic error, stashing the current options in `fetchMeta`. -/
def triggerError (q : Query) : Query :=
  let previousQueryOptions := q.options
  { q with state := { q.state with
      status := .error,
      error := some "Unknown error from devtools",
      fetchMeta := some { prevOptions := some previousQueryOptions } } }

/-- Embedding of the `query-action` socket handler of
`useSyncQueriesExternal.ts`.  `selfDeviceId` is the hook's `deviceId` prop
captured by the closure; note that the handler's destructuring
`const { queryHash, queryKey, data, action, deviceId } = message` shadows it,
so the `shouldProcessMessage` call compares the message's target id with
itself — faithful to the source, where the captured prop is unused in the
targeting decision.  Returns the new world and the log trace. -/
def handleQueryAction (selfDeviceId : String) (msg : QueryActionMessage)
    (w : World) (now : Nat) : World × List LogEvent :=
  -- destructuring of the message; `deviceId` shadows `selfDeviceId`
  let deviceId := msg.deviceId
  let _ := selfDeviceId
  if deviceId == "" then
    (w, [⟨.warn, "no-persistent-device-id"⟩])
  else if !(shouldProcessMessage deviceId deviceId) then
    (w, [])
  else
    let received : LogEvent := ⟨.info, "received-query-action"⟩
    if msg.action = .clearMutationCache then
      ({ w with client := { w.client with mutationCache := [] } },
       [received, ⟨.info, "cleared-mutation-cache"⟩])
    else if msg.action = .clearQueryCache then
      ({ w with client := { w.client with queryCache := [] } },
       [received, ⟨.info, "cleared-query-cache"⟩])
    else
      match getQueryByHash w.client.queryCache msg.queryHash with
      | none => (w, [received, ⟨.warn, "query-not-found"⟩])
      | some activeQuery =>
        let cache := w.client.queryCache
        match msg.action with
        | .dataUpdate =>
            ({ w with client := { w.client with
                queryCache := setQueryData cache msg.queryKey msg.data now } },
             [received, ⟨.info, "data-update"⟩])
        | .triggerError =>
            ({ w with client := { w.client with
                queryCache := replaceQueryByHash cache msg.queryHash triggerError } },
             [received, ⟨.info, "trigger-error"⟩])
        | .restoreError =>
            ({ w with client := { w.client with
                queryCache := cache.map (fun q =>
                  if keyFilterMatch activeQuery.queryKey q.queryKey then resetQuery q
                  else q) } },
             [received, ⟨.info, "restore-error"⟩])
        | .triggerLoading =>
            ({ w with client := { w.client with
                queryCache := replaceQueryByHash cache msg.queryHash triggerLoading } },
             [received, ⟨.info, "trigger-loading"⟩])
        | .restoreLoading =>
            ({ w with client := { w.client with
                queryCache := replaceQueryByHash cache msg.queryHash restoreLoading } },
             [received, ⟨.info, "restore-loading"⟩])
        | .reset =>
            ({ w with client := { w.client with
                queryCache := cache.map (fun q =>
                  if keyFilterMatch activeQuery.queryKey q.queryKey then resetQuery q
                  else q) } },
             [received, ⟨.info, "reset"⟩])
        | .remove =>
            ({ w with client := { w.client with
                queryCache := cache.filter (fun q =>
                  !(keyFilterMatch activeQuery.queryKey q.queryKey)) } },
             [received, ⟨.info, "remove"⟩])
        | .refetch =>
            ({ w with client := { w.client with
                queryCache := replaceQueryByHash cache msg.queryHash Query.fetchCurrent } },
             [received, ⟨.info, "refetch"⟩])
        | .invalidate =>
            ({ w with client := { w.client with
                queryCache := invalidateQueriesByKey cache activeQuery.queryKey } },
             [received, ⟨.info, "invalidate"⟩])
        | .onlineManagerOnline =>
            ({ w with online := true }, [received, ⟨.info, "online"⟩])
        | .onlineManagerOffline =>
            ({ w with online := false }, [received, ⟨.info, "offline"⟩])
        | .internalSuccess => (w, [received])
        | .clearMutationCache => (w, [received])
        | .clearQueryCache => (w, [received])

/-- Emitted observer entry.  The source literal is
`{ queryHash, options: observer.options, queryFn: undefined }`: the sibling
`queryFn` field is written as `undefined`, while `options` is the observer's
options object, its own `queryFn` included. -/
structure ObserverStateEmitted where
  queryHash : String
  options : QueryOptions
  queryFn : Option QueryFnRef
deriving Repr

/-- Snapshot entry for one query (`DehydratedQuery` of `types.ts`). -/
structure DehydratedQuery where
  queryHash : String
  queryKey : List JSData
  state : QueryState
  meta : Option (List (String × JSData))
  observers : List ObserverStateEmitted
deriving Repr

/-- Snapshot entry for one mutation (`DehydratedMutation` of `types.ts`). -/
structure DehydratedMutation where
  mutationId : Nat
  mutationKey : Option (List JSData)
  state : JSData
  scope : Option String
  meta : Option (List (String × JSData))
deriving Repr

/-- Full snapshot (`DehydratedState` of `types.ts`). -/
structure DehydratedState where
  mutations : List DehydratedMutation
  queries : List DehydratedQuery
deriving Repr

/-- Embedding of `dehydrateMutation` from `hydration.ts`: id, key and state
verbatim, scope and meta only when present (conditional spreads collapse to
the `Option`). -/
def dehydrateMutation (m : Mutation) : DehydratedMutation :=
  { mutationId := m.mutationId,
    mutationKey := m.mutationKey,
    state := m.state,
    scope := m.scope,
    meta := m.meta }

/-- Embedding of `dehydrateQuery` from `hydration.ts`.  The emitted state is
`{...query.state, ...(query.state.data !== undefined && {data})}`: with data
defined the conditional spread re-adds it, with data undefined the base
spread's `data: undefined` and an absent key both serialize away, collapsing
to `none` here.  Observers are mapped to the literal
`{queryHash, options, queryFn: undefined}`. -/
def dehydrateQuery (q : Query) : DehydratedQuery :=
  let observerStates : List ObserverStateEmitted := q.observers.map (fun o =>
    { queryHash := q.queryHash,
      options := o.options,
      queryFn := none })
  { state := { q.state with
      data := match q.state.data with
        | some v => some v
        | none => none },
    queryKey := q.queryKey,
    queryHash := q.queryHash,
    meta := q.meta,
    observers := observerStates }

/-- Embedding of `Dehydrate` from `hydration.ts`: flat-map each cache's
entries through its dehydrator (the source uses `flatMap` with singleton
lists). -/
def Dehydrate (client : QueryClient) : DehydratedState :=
  let mutations := client.mutationCache.flatMap (fun m => [dehydrateMutation m])
  let queries := client.queryCache.flatMap (fun q => [dehydrateQuery q])
  { mutations := mutations, queries := queries }

/-- Pointwise boolean equality of lists, a building block of the structural
snapshot comparison. -/
def listEqBy (f : α → α → Bool) : List α → List α → Bool
  | [], [] => true
  | x :: xs, y :: ys => f x y && listEqBy f xs ys
  | _, _ => false

/-- Boolean equality of optional values. -/
def optEqBy (f : α → α → Bool) : Option α → Option α → Bool
  | none, none => true
  | some a, some b => f a b
  | _, _ => false

/-- Field-for-field equality of query states. -/
def queryStateEq (a b : QueryState) : Bool :=
  optEqBy jsDataEq a.data b.data &&
  a.status == b.status &&
  a.fetchStatus == b.fetchStatus &&
  a.error == b.error &&
  a.fetchMeta == b.fetchMeta &&
  a.isInvalidated == b.isInvalidated &&
  a.fetchFailureReason == b.fetchFailureReason &&
  a.dataUpdatedAt == b.dataUpdatedAt

/-- Field-for-field equality of emitted observer entries. -/
def observerStateEq (a b : ObserverStateEmitted) : Bool :=
  a.queryHash == b.queryHash && a.options == b.options && a.queryFn == b.queryFn

/-- Field-for-field equality of dehydrated queries. -/
def dehydratedQueryEq (a b : DehydratedQuery) : Bool :=
  a.queryHash == b.queryHash &&
  listEqBy jsDataEq a.queryKey b.queryKey &&
  queryStateEq a.state b.state &&
  optEqBy (jsDataObjEq) a.meta b.meta &&
  listEqBy observerStateEq a.observers b.observers

/-- Field-for-field equality of dehydrated mutations. -/
def dehydratedMutationEq (a b : DehydratedMutation) : Bool :=
  a.mutationId == b.mutationId &&
  optEqBy (listEqBy jsDataEq) a.mutationKey b.mutationKey &&
  jsDataEq a.state b.state &&
  a.scope == b.scope &&
  optEqBy (jsDataObjEq) a.meta b.meta

/-- Structural equality of snapshots, mutation list and query list, field for
field. -/
def dehydratedStateEq (a b : DehydratedState) : Bool :=
  listEqBy dehydratedMutationEq a.mutations b.mutations &&
  listEqBy dehydratedQueryEq a.queries b.queries

/-- Per-query tuple the strict change detector of `useAllQueries` extracts
from each cache entry before comparing. -/
structure QueryDataTuple where
  data : Option JSData
  error : Option String
  fetchFailureReason : Option String
  fetchMeta : Option FetchMeta
  fetchStatus : FetchStatus
  isInvalidated : Bool
  status : QueryStatus
deriving Repr

/-- Extraction of the compared tuple from one query, per the `map` inside
`updateQueries`. -/
def extractTuple (q : Query) : QueryDataTuple :=
  { data := q.state.data,
    error := q.state.error,
    fetchFailureReason := q.state.fetchFailureReason,
    fetchMeta := q.state.fetchMeta,
    fetchStatus := q.state.fetchStatus,
    isInvalidated := q.state.isInvalidated,
    status := q.state.status }

/-- Structural deep equality of one compared tuple (`fast-equals` `deepEqual`
restricted to the tuple's fields). -/
def tupleEq (a b : QueryDataTuple) : Bool :=
  optEqBy jsDataEq a.data b.data &&
  a.error == b.error &&
  a.fetchFailureReason == b.fetchFailureReason &&
  a.fetchMeta == b.fetchMeta &&
  a.fetchStatus == b.fetchStatus &&
  a.isInvalidated == b.isInvalidated &&
  a.status == b.status

/-- Deep equality of the compared arrays. -/
def tupleListEq (a b : List QueryDataTuple) : Bool :=
  listEqBy tupleEq a b

/-- State of the strict change detector: the last-seen compared array
(`prevDataRef`). -/
structure DetectorState where
  prevData : List QueryDataTuple
deriving Repr

/-- Embedding of `updateQueries` from `useAllQueries`: extract the compared
tuples, and only when they are not deep-equal to the last-seen array update
the ref and broadcast.  The boolean is whether a broadcast was emitted on
this notification. -/
def updateQueries (st : DetectorState) (qs : List Query) :
    DetectorState × Bool :=
  let currentDataStates := qs.map extractTuple
  if tupleListEq st.prevData currentDataStates then
    (st, false)
  else
    ({ prevData := currentDataStates }, true)

/-- Pluggable key-value backend behind the Storage Bridge, after
`createStorageAdapter` has normalized it to `{set, delete}`.  `failingKeys`
models keys on which the backend write throws. -/
structure Backend where
  store : List (String × JSData)
  failingKeys : List String
deriving Repr

/-- Modelled from the spec: the normalized backend `set(key, value)`; throws
(returns `.error`) exactly on the failing keys. -/
def backendSet (b : Backend) (key : String) (v : JSData) :
    Except String Backend :=
  if b.failingKeys.contains key then .error "backend set failed"
  else .ok { b with store := (key, v) :: b.store.filter (fun kv => !(kv.1 == key)) }

/-- Modelled from the spec: the normalized backend `delete(key)`; throws
exactly on the failing keys. -/
def backendDelete (b : Backend) (key : String) : Except String Backend :=
  if b.failingKeys.contains key then .error "backend delete failed"
  else .ok { b with store := b.store.filter (fun kv => !(kv.1 == key)) }

/-- Observable side effects of a storage operation, in execution order. -/
inductive StorageEffect where
  | backendSet (key : String) (value : JSData)
  | backendDelete (key : String)
  | invalidateKey (key : List JSData)
deriving Repr

/-- Result of a storage bridge operation: new backend (when one was
configured), new cache, logs and ordered effect trace. -/
structure StorageOpResult where
  backend : Backend
  cache : List Query
  logs : List LogEvent
  effects : List StorageEffect
deriving Repr

/-- JS `typeof data` is string, number or boolean. -/
def isPrimitiveData : JSData → Bool
  | .str _ => true
  | .num _ => true
  | .bool _ => true
  | _ => false

/-- Embedding of `handleStorageOperation` from `utils/storageHandlers.ts`:
inside a try, delete the key when data is null/undefined, write primitives
through as-is, JSON-stringify everything else before writing, then
invalidate the mirrored query; on a backend throw, catch it, log an
error-level line and fall back to a bare cache write of the data. -/
def handleStorageOperation (queryKey : List JSData) (data : Option JSData)
    (cache : List Query) (storageKey : String) (backend : Backend)
    (storageType : String) (now : Nat) : StorageOpResult :=
  let fallback : StorageOpResult :=
    { backend := backend,
      cache := setQueryData cache queryKey data now,
      logs := [⟨.error, "storage-update-failed:" ++ storageType⟩],
      effects := [] }
  match data with
  | none =>
      (match backendDelete backend storageKey with
       | .ok b =>
           { backend := b,
             cache := invalidateQueriesByKey cache queryKey,
             logs := [],
             effects := [.backendDelete storageKey, .invalidateKey queryKey] }
       | .error _ => fallback)
  | some .null =>
      (match backendDelete backend storageKey with
       | .ok b =>
           { backend := b,
             cache := invalidateQueriesByKey cache queryKey,
             logs := [],
             effects := [.backendDelete storageKey, .invalidateKey queryKey] }
       | .error _ => fallback)
  | some v =>
      let payload := if isPrimitiveData v then v else .str (jsonStringify v)
      match backendSet backend storageKey payload with
      | .ok b =>
          { backend := b,
            cache := invalidateQueriesByKey cache queryKey,
            logs := [],
            effects := [.backendSet storageKey payload, .invalidateKey queryKey] }
      | .error _ => fallback

/-- Model of the unchecked `queryKey[i] as string` cast; the protocol only
places strings in these two positions. -/
def jsAsString : Option JSData → String
  | some (.str s) => s
  | _ => ""

/-- Model of the JavaScript `String.prototype.toLowerCase` on the ASCII
namespace tokens this code compares. -/
def jsToLower (s : String) : String :=
  ⟨s.data.map Char.toLower⟩

/-- Namespace strings accepted by the `switch` of `handleStorageUpdate`
(after `toLowerCase`). -/
def recognizedStorageNamespace (ns : String) : Bool :=
  let t := jsToLower ns
  t == "mmkv" || t == "asyncstorage" || t == "async-storage" || t == "async" ||
  t == "securestorage" || t == "secure-storage" || t == "secure"

/-- Display name the source passes to the unified handler per namespace. -/
def storageTypeName (ns : String) : String :=
  let t := jsToLower ns
  if t == "mmkv" then "MMKV"
  else if t == "asyncstorage" || t == "async-storage" || t == "async" then
    "AsyncStorage"
  else "SecureStore"

/-- Result of the `handleStorageUpdate` dispatcher. -/
structure StorageUpdateResult where
  handled : Bool
  backend : Option Backend
  cache : List Query
  logs : List LogEvent
  effects : List StorageEffect
deriving Repr

/-- Embedding of `handleStorageUpdate` from `utils/storageHandlers.ts`:
extract namespace and key from positions 1 and 2 of the queryKey; for a
recognized namespace with no configured backend, warn and report unhandled;
for a recognized namespace with a backend, run the unified handler and
report handled; otherwise report unhandled so the caller falls back to a
regular query update. -/
def handleStorageUpdate (queryKey : List JSData) (data : Option JSData)
    (cache : List Query) (backend : Option Backend) (now : Nat) :
    StorageUpdateResult :=
  let storageType := jsAsString (queryKey.get? 1)
  let storageKey := jsAsString (queryKey.get? 2)
  if recognizedStorageNamespace storageType then
    match backend with
    | none =>
        { handled := false, backend := none, cache := cache,
          logs := [⟨.warn, "storage-not-configured:" ++ storageKey⟩],
          effects := [] }
    | some b =>
        let r := handleStorageOperation queryKey data cache storageKey b
          (storageTypeName storageType) now
        { handled := true, backend := some r.backend, cache := r.cache,
          logs := r.logs, effects := r.effects }
  else
    { handled := false, backend := backend, cache := cache, logs := [],
      effects := [] }

/-- Model of the JavaScript `String.prototype.trim`: strip leading and
trailing whitespace. -/
def jsTrim (s : String) : String :=
  ⟨((s.data.dropWhile Char.isWhitespace).reverse.dropWhile
      Char.isWhitespace).reverse⟩

/-- Embedding of the guard `if (!deviceId?.trim())` at the top of
`useSyncQueriesExternal`: `undefined` short-circuits to a falsy value, and
a string is falsy exactly when trimming leaves it empty. -/
def deviceIdIsValid : Option String → Bool
  | none => false
  | some s => !(jsTrim s == "")

/-- Marker that the hook got past validation: the socket session was
acquired and the event handlers of the effect body were registered. -/
structure HookSetup where
  connectedSocketURL : String
  handlersRegistered : Bool
deriving DecidableEq, Repr

/-- Embedding of the prologue of `useSyncQueriesExternal`: the deviceId
guard throws before the socket hook or any event handler registration runs;
past the guard, the session is wired up. -/
def useSyncQueriesExternalInit (deviceId : Option String)
    (socketURL : String) : Except String HookSetup :=
  if !(deviceIdIsValid deviceId) then
    .error "deviceId is required and must not be empty"
  else
    .ok { connectedSocketURL := socketURL, handlersRegistered := true }

mutual

theorem jsDataEq_refl : (a : JSData) → jsDataEq a a = true
  | .null => rfl
  | .str _ => by simp [jsDataEq]
  | .num _ => by simp [jsDataEq]
  | .bool _ => by simp [jsDataEq]
  | .arr xs => by simp [jsDataEq, jsDataListEq_refl xs]
  | .obj fs => by simp [jsDataEq, jsDataObjEq_refl fs]

theorem jsDataListEq_refl : (xs : List JSData) → jsDataListEq xs xs = true
  | [] => rfl
  | x :: xs => by simp [jsDataListEq, jsDataEq_refl x, jsDataListEq_refl xs]

theorem jsDataObjEq_refl : (fs : List (String × JSData)) → jsDataObjEq fs fs = true
  | [] => rfl
  | (_, v) :: fs => by simp [jsDataObjEq, jsDataEq_refl v, jsDataObjEq_refl fs]

end

theorem listEqBy_refl {α : Type} (f : α → α → Bool) (h : ∀ a, f a a = true) :
    ∀ xs : List α, listEqBy f xs xs = true
  | [] => rfl
  | x :: xs => by simp [listEqBy, h x, listEqBy_refl f h xs]

theorem optEqBy_refl {α : Type} (f : α → α → Bool) (h : ∀ a, f a a = true) :
    ∀ o : Option α, optEqBy f o o = true
  | none => rfl
  | some a => by simp [optEqBy, h a]

theorem queryStateEq_refl (s : QueryState) : queryStateEq s s = true := by
  simp [queryStateEq, optEqBy_refl jsDataEq jsDataEq_refl]

theorem observerStateEq_refl (o : ObserverStateEmitted) :
    observerStateEq o o = true := by
  simp [observerStateEq]

theorem dehydratedQueryEq_refl (q : DehydratedQuery) :
    dehydratedQueryEq q q = true := by
  simp [dehydratedQueryEq, listEqBy_refl jsDataEq jsDataEq_refl,
    queryStateEq_refl, optEqBy_refl jsDataObjEq jsDataObjEq_refl,
    listEqBy_refl observerStateEq observerStateEq_refl]

theorem dehydratedMutationEq_refl (m : DehydratedMutation) :
    dehydratedMutationEq m m = true := by
  simp [dehydratedMutationEq, jsDataEq_refl,
    optEqBy_refl _ (listEqBy_refl jsDataEq jsDataEq_refl),
    optEqBy_refl jsDataObjEq jsDataObjEq_refl]

theorem dehydratedStateEq_refl (d : DehydratedState) :
    dehydratedStateEq d d = true := by
  simp [dehydratedStateEq, listEqBy_refl dehydratedMutationEq dehydratedMutationEq_refl,
    listEqBy_refl dehydratedQueryEq dehydratedQueryEq_refl]

theorem tupleEq_refl (t : QueryDataTuple) : tupleEq t t = true := by
  simp [tupleEq, optEqBy_refl jsDataEq jsDataEq_refl]

theorem tupleListEq_refl (ts : List QueryDataTuple) : tupleListEq ts ts = true := by
  simp [tupleListEq, listEqBy_refl tupleEq tupleEq_refl]

/-- Sample application options: a real fetch function and a finite gcTime. -/
def sampleOptions : QueryOptions :=
  { queryFn := some (.userFn 7), gcTime := some 300000 }

/-- Sample cache entry in a settled success state with one live observer. -/
def sampleQuery : Query :=
  { queryHash := "hash-todos",
    queryKey := [.str "todos"],
    state := { data := some (.str "v"), status := .success, fetchStatus := .idle,
               error := none, fetchMeta := none, isInvalidated := false,
               fetchFailureReason := none, dataUpdatedAt := 100 },
    options := sampleOptions,
    observers := [{ options := sampleOptions }],
    meta := none }

/-- Sample cache entry that has never produced data (`data` undefined). -/
def sampleNoDataQuery : Query :=
  { queryHash := "hash-empty",
    queryKey := [.str "empty"],
    state := { data := none, status := .pending, fetchStatus := .idle,
               error := none, fetchMeta := none, isInvalidated := false,
               fetchFailureReason := none, dataUpdatedAt := 0 },
    options := sampleOptions,
    observers := [],
    meta := none }

/-- Sample world holding the two sample queries and no mutations. -/
def sampleWorld : World :=
  { client := { queryCache := [sampleQuery, sampleNoDataQuery],
                mutationCache := [],
                defaultOptions := { queryFn := none, gcTime := none } },
    online := true }

/-- Command addressed to a different device than the receiver
(`device-A` receives a message targeting `device-B`). -/
def mistargetedClearMsg : QueryActionMessage :=
  { queryHash := "hash-todos", queryKey := [.str "todos"], data := none,
    action := .clearQueryCache, deviceId := "device-B" }

/-- C1: the claim says a query-action message is processed iff its target id
equals this device's id or `"All"`.  The code violates this: the handler's
destructuring of the message shadows the hook's `deviceId`, so the targeting
check compares the message's target with itself and passes for every
non-empty target.  Evaluated here: device `device-A` receives a clear-cache
command targeting `device-B` — the correct predicate rejects it, yet the
handler processes it and wipes the cache. -/
theorem c1_targeting_shadow_bug_eval :
    mistargetedClearMsg.deviceId ≠ "device-A" ∧
    mistargetedClearMsg.deviceId ≠ "All" ∧
    shouldProcessMessage mistargetedClearMsg.deviceId "device-A" = false ∧
    sampleWorld.client.queryCache ≠ [] ∧
    (handleQueryAction "device-A" mistargetedClearMsg sampleWorld 0).1.client.queryCache = [] ∧
    (handleQueryAction "device-A" mistargetedClearMsg sampleWorld 0).2 =
      [⟨.info, "received-query-action"⟩, ⟨.info, "cleared-query-cache"⟩] := by
  refine ⟨by decide, by decide, by decide, ?_, rfl, rfl⟩
  simp [sampleWorld]

/-- C4: the claim says each emitted observer entry has its fetch function
scrubbed.  The data-presence half holds (emitted `state.data` is present
exactly when the cache entry's data is defined), but the scrubbing half
fails: `dehydrateQuery` writes `undefined` into a *new* top-level `queryFn`
field of the emitted entry while copying `observer.options` whole, so the
callable fetch function is still reachable at `options.queryFn` — contrary
to the source's own comment "Remove queryFn from observer options". -/
theorem c4_observer_queryfn_not_scrubbed_eval :
    (dehydrateQuery sampleQuery).state.data = some (.str "v") ∧
    (dehydrateQuery sampleNoDataQuery).state.data = none ∧
    (dehydrateQuery sampleQuery).observers =
      [{ queryHash := "hash-todos", options := sampleOptions, queryFn := none }] ∧
    ((dehydrateQuery sampleQuery).observers.map (fun o => o.options.queryFn)) =
      [some (.userFn 7)] :=
  ⟨rfl, rfl, rfl, rfl⟩

/-- C9 counterexample: Trigger-Loading then Restore-Loading does not return
a settled success entry to its previous state.  Starting from
`status = success`, `fetchStatus = idle`, `data = "v"`, the command pair
leaves the entry `pending`/`fetching` with `data` undefined (the re-issued
real fetch has not completed, per the claim's own assumption). -/
theorem c9_loading_restore_not_symmetric_cex :
    sampleQuery.state.status = .success ∧
    sampleQuery.state.fetchStatus = .idle ∧
    sampleQuery.state.data = some (.str "v") ∧
    (restoreLoading (triggerLoading sampleQuery)).state.status ≠
      sampleQuery.state.status ∧
    (restoreLoading (triggerLoading sampleQuery)).state.fetchStatus ≠
      sampleQuery.state.fetchStatus ∧
    (restoreLoading (triggerLoading sampleQuery)).state.data ≠
      sampleQuery.state.data := by
  refine ⟨rfl, rfl, rfl, by decide, by decide, ?_⟩
  intro h
  exact Option.noConfusion h

/-- C9 amended: Trigger-Loading followed immediately by Restore-Loading
silently cancels the simulated fetch, clears the `fetchMeta` stash, restores
the entry's *options* from the stash and re-issues a real fetch with them;
with no fetch completing, the entry is left `status = pending`,
`data` undefined, `fetchStatus = fetching` — the pre-command state is only
restored by that fetch completing, not by the command pair itself. -/
theorem c9_loading_restore_amended (q : Query) :
    (restoreLoading (triggerLoading q)).state.status = .pending ∧
    (restoreLoading (triggerLoading q)).state.data = none ∧
    (restoreLoading (triggerLoading q)).state.fetchStatus = .fetching ∧
    (restoreLoading (triggerLoading q)).state.fetchMeta = none ∧
    (restoreLoading (triggerLoading q)).options = q.options :=
  ⟨rfl, rfl, rfl, rfl, rfl⟩

/-- C2: a query-action whose action is not cache-clearing and whose
`queryHash` resolves to no cache entry leaves the world (both caches and the
online flag) untouched, logs exactly the gated receipt line plus one
warning, and returns normally — the handler's source has no throw and no
retry on this path, so the embedding is a total function returning the
unchanged world. -/
theorem c2_not_found_safe (selfId : String) (msg : QueryActionMessage)
    (w : World) (now : Nat)
    (hdev : msg.deviceId ≠ "")
    (hcm : msg.action ≠ .clearMutationCache)
    (hcq : msg.action ≠ .clearQueryCache)
    (hmiss : getQueryByHash w.client.queryCache msg.queryHash = none) :
    handleQueryAction selfId msg w now =
      (w, [⟨.info, "received-query-action"⟩, ⟨.warn, "query-not-found"⟩]) := by
  have h1 : (msg.deviceId == "") = false := by
    simpa using hdev
  have h2 : shouldProcessMessage msg.deviceId msg.deviceId = true := by
    simp [shouldProcessMessage]
  simp only [handleQueryAction, h1, h2, hmiss, if_neg hcm, if_neg hcq,
    Bool.not_true, Bool.false_eq_true, if_false]

/-- Message used to exercise the not-found path: its hash matches nothing in
the sample world. -/
def missingHashMsg : QueryActionMessage :=
  { queryHash := "hash-missing", queryKey := [.str "missing"], data := none,
    action := .refetch, deviceId := "device-A" }

/-- Witness for C2 at a concrete input: the sample world is returned intact
with the receipt line and the warning. -/
theorem c2_not_found_safe_witness :
    handleQueryAction "device-A" missingHashMsg sampleWorld 5 =
      (sampleWorld, [⟨.info, "received-query-action"⟩, ⟨.warn, "query-not-found"⟩]) :=
  c2_not_found_safe "device-A" missingHashMsg sampleWorld 5
    (by decide) (by decide) (by decide) rfl

/-- C3: for a cache-clearing action the handler clears the corresponding
cache and returns before the `queryHash` lookup — the result holds for every
world, with no hypothesis on the lookup, and the log trace contains no
"not found" warning. -/
theorem c3_clear_actions_bypass_resolution (selfId : String)
    (msg : QueryActionMessage) (w : World) (now : Nat)
    (hdev : msg.deviceId ≠ "") :
    (msg.action = .clearMutationCache →
      handleQueryAction selfId msg w now =
        ({ w with client := { w.client with mutationCache := [] } },
         [⟨.info, "received-query-action"⟩, ⟨.info, "cleared-mutation-cache"⟩])) ∧
    (msg.action = .clearQueryCache →
      handleQueryAction selfId msg w now =
        ({ w with client := { w.client with queryCache := [] } },
         [⟨.info, "received-query-action"⟩, ⟨.info, "cleared-query-cache"⟩])) := by
  have h1 : (msg.deviceId == "") = false := by
    simpa using hdev
  have h2 : shouldProcessMessage msg.deviceId msg.deviceId = true := by
    simp [shouldProcessMessage]
  constructor
  · intro ha
    simp only [handleQueryAction, h1, h2, if_pos ha, Bool.not_true,
      Bool.false_eq_true, if_false]
  · intro ha
    have hne : msg.action ≠ .clearMutationCache := by
      rw [ha]; intro h; exact QueryAction.noConfusion h
    simp only [handleQueryAction, h1, h2, if_neg hne, if_pos ha, Bool.not_true,
      Bool.false_eq_true, if_false]

/-- Clear-query-cache command whose `queryHash` matches no entry in the
sample world. -/
def clearWithMissingHashMsg : QueryActionMessage :=
  { queryHash := "hash-missing", queryKey := [], data := none,
    action := .clearQueryCache, deviceId := "device-A" }

/-- Witness for C3 at a concrete input: the hash resolves to nothing, yet
the query cache is wiped and no "not found" warning is logged. -/
theorem c3_clear_actions_bypass_resolution_witness :
    getQueryByHash sampleWorld.client.queryCache "hash-missing" = none ∧
    handleQueryAction "device-A" clearWithMissingHashMsg sampleWorld 5 =
      ({ sampleWorld with client := { sampleWorld.client with queryCache := [] } },
       [⟨.info, "received-query-action"⟩, ⟨.info, "cleared-query-cache"⟩]) :=
  ⟨rfl,
   (c3_clear_actions_bypass_resolution "device-A" clearWithMissingHashMsg
      sampleWorld 5 (by decide)).2 rfl⟩

/-- C5: dehydration is a pure function of current cache content — two
clients agreeing on both caches (whatever their other configuration)
dehydrate to structurally equal snapshots, field for field; with
`c₂ := c₁` this is idempotence under an unchanged cache.  The embedding
types `Dehydrate` as a read-only function: its source only iterates
`getAll()` and copies fields, so cache mutation is not expressible. -/
theorem c5_dehydrate_pure_idempotent (c₁ c₂ : QueryClient)
    (hq : c₁.queryCache = c₂.queryCache)
    (hm : c₁.mutationCache = c₂.mutationCache) :
    dehydratedStateEq (Dehydrate c₁) (Dehydrate c₂) = true := by
  have e : Dehydrate c₁ = Dehydrate c₂ := by
    simp [Dehydrate, hq, hm]
  rw [e]
  exact dehydratedStateEq_refl _

/-- Sample in-flight mutation. -/
def sampleMutation : Mutation :=
  { mutationId := 3, mutationKey := some [.str "addTodo"],
    state := .obj [("status", .str "pending")], scope := none,
    meta := none }

/-- Client with both sample queries and the sample mutation. -/
def clientA : QueryClient :=
  { queryCache := [sampleQuery, sampleNoDataQuery],
    mutationCache := [sampleMutation],
    defaultOptions := sampleOptions }

/-- Same caches as `clientA`, different non-cache configuration. -/
def clientB : QueryClient :=
  { queryCache := [sampleQuery, sampleNoDataQuery],
    mutationCache := [sampleMutation],
    defaultOptions := { queryFn := none, gcTime := none } }

/-- Witness for C5 at a concrete input: the snapshots of the two clients are
structurally equal. -/
theorem c5_dehydrate_pure_idempotent_witness :
    dehydratedStateEq (Dehydrate clientA) (Dehydrate clientB) = true :=
  c5_dehydrate_pure_idempotent clientA clientB rfl rfl

/-- C6: in the strict change detector, when a notification's compared
tuples differ from the last-seen array (so the pair is reachable at all)
and the next notification's tuples are deep-equal to them, the pair emits
exactly one broadcast: the first notification broadcasts and updates the
ref, the second is suppressed. -/
theorem c6_change_suppression (st : DetectorState) (qs₁ qs₂ : List Query)
    (hchange : tupleListEq st.prevData (qs₁.map extractTuple) = false)
    (hsame : tupleListEq (qs₁.map extractTuple) (qs₂.map extractTuple) = true) :
    (updateQueries st qs₁).2 = true ∧
    (updateQueries (updateQueries st qs₁).1 qs₂).2 = false := by
  unfold updateQueries
  simp [hchange, hsame]

/-- Fresh detector state (empty `prevDataRef`). -/
def detectorStart : DetectorState := { prevData := [] }

/-- Witness for C6 at a concrete input: two consecutive notifications with
identical tuples from one query — the first broadcasts, the second does
not. -/
theorem c6_change_suppression_witness :
    (updateQueries detectorStart [sampleQuery]).2 = true ∧
    (updateQueries (updateQueries detectorStart [sampleQuery]).1 [sampleQuery]).2 = false :=
  c6_change_suppression detectorStart [sampleQuery] [sampleQuery] rfl rfl

/-- C7: a storage Data-Update on `["#storage", ns, key]` with a configured
backend whose write succeeds is handled by the bridge: primitives are
written through as-is and non-primitives are JSON-stringified first, the
backend holds the serialized value afterwards, and the mirrored cache entry
is invalidated *after* the write (the effect trace is
`[backendSet, invalidateKey]`). -/
theorem c7_storage_update_success (ns key : String) (v : JSData)
    (cache : List Query) (b : Backend) (now : Nat)
    (hns : recognizedStorageNamespace ns = true)
    (hok : b.failingKeys.contains key = false)
    (hv : v ≠ .null) :
    (handleStorageUpdate [.str "#storage", .str ns, .str key] (some v)
        cache (some b) now).handled = true ∧
    (handleStorageUpdate [.str "#storage", .str ns, .str key] (some v)
        cache (some b) now).effects =
      [.backendSet key (if isPrimitiveData v then v else .str (jsonStringify v)),
       .invalidateKey [.str "#storage", .str ns, .str key]] ∧
    (handleStorageUpdate [.str "#storage", .str ns, .str key] (some v)
        cache (some b) now).backend =
      some { b with store :=
        (key, if isPrimitiveData v then v else .str (jsonStringify v)) ::
          b.store.filter (fun kv => !(kv.1 == key)) } ∧
    (handleStorageUpdate [.str "#storage", .str ns, .str key] (some v)
        cache (some b) now).cache =
      invalidateQueriesByKey cache [.str "#storage", .str ns, .str key] ∧
    (handleStorageUpdate [.str "#storage", .str ns, .str key] (some v)
        cache (some b) now).logs = [] := by
  have hok' : ¬ key ∈ b.failingKeys := by simpa using hok
  cases v with
  | null => exact absurd rfl hv
  | str s =>
      simp [handleStorageUpdate, jsAsString, hns, handleStorageOperation,
        isPrimitiveData, backendSet, hok']
  | num n =>
      simp [handleStorageUpdate, jsAsString, hns, handleStorageOperation,
        isPrimitiveData, backendSet, hok']
  | bool bb =>
      simp [handleStorageUpdate, jsAsString, hns, handleStorageOperation,
        isPrimitiveData, backendSet, hok']
  | arr xs =>
      simp [handleStorageUpdate, jsAsString, hns, handleStorageOperation,
        isPrimitiveData, backendSet, hok']
  | obj fs =>
      simp [handleStorageUpdate, jsAsString, hns, handleStorageOperation,
        isPrimitiveData, backendSet, hok']

/-- Backend holding one token with no failing keys. -/
def healthyBackend : Backend :=
  { store := [("token", .str "old")], failingKeys := [] }

/-- Witness for C7 at a concrete input: writing the object
`x7b count: 2 x7d` to `["#storage","async","token"]` stores its JSON text
and invalidates the mirrored key, write before invalidation. -/
theorem c7_storage_update_success_witness :
    (handleStorageUpdate [.str "#storage", .str "async", .str "token"]
        (some (.obj [("count", .num 2)])) [] (some healthyBackend) 9).handled = true ∧
    (handleStorageUpdate [.str "#storage", .str "async", .str "token"]
        (some (.obj [("count", .num 2)])) [] (some healthyBackend) 9).effects =
      [.backendSet "token"
         (if isPrimitiveData (.obj [("count", .num 2)]) then .obj [("count", .num 2)]
          else .str (jsonStringify (.obj [("count", .num 2)]))),
       .invalidateKey [.str "#storage", .str "async", .str "token"]] ∧
    (handleStorageUpdate [.str "#storage", .str "async", .str "token"]
        (some (.obj [("count", .num 2)])) [] (some healthyBackend) 9).backend =
      some { healthyBackend with store :=
        ("token",
         if isPrimitiveData (.obj [("count", .num 2)]) then .obj [("count", .num 2)]
         else .str (jsonStringify (.obj [("count", .num 2)]))) ::
          healthyBackend.store.filter (fun kv => !(kv.1 == "token")) } ∧
    (handleStorageUpdate [.str "#storage", .str "async", .str "token"]
        (some (.obj [("count", .num 2)])) [] (some healthyBackend) 9).cache =
      invalidateQueriesByKey [] [.str "#storage", .str "async", .str "token"] ∧
    (handleStorageUpdate [.str "#storage", .str "async", .str "token"]
        (some (.obj [("count", .num 2)])) [] (some healthyBackend) 9).logs = [] :=
  c7_storage_update_success "async" "token" (.obj [("count", .num 2)])
    [] healthyBackend 9 (by decide) (by decide) (fun h => JSData.noConfusion h)

/-- C8: when the backend write throws, the bridge catches it (the embedding
returns normally with no error propagated and the outer `.catch` fallback of
`handleStorageUpdate` is never reached), logs an error-level line that the
success path never emits (the success branch logs nothing), leaves the
backend as it was, and falls back to a bare cache write of the data into the
mirrored cache entry; no invalidation effect is produced.  The final
conjunct states the distinguishability: with a non-throwing backend the same
operation logs nothing at all. -/
theorem c8_storage_write_failure_fallback (ns key : String) (v : JSData)
    (cache : List Query) (b : Backend) (now : Nat)
    (hns : recognizedStorageNamespace ns = true)
    (hfail : b.failingKeys.contains key = true) :
    (handleStorageUpdate [.str "#storage", .str ns, .str key] (some v)
        cache (some b) now).handled = true ∧
    (handleStorageUpdate [.str "#storage", .str ns, .str key] (some v)
        cache (some b) now).logs =
      [⟨.error, "storage-update-failed:" ++ storageTypeName ns⟩] ∧
    (handleStorageUpdate [.str "#storage", .str ns, .str key] (some v)
        cache (some b) now).effects = [] ∧
    (handleStorageUpdate [.str "#storage", .str ns, .str key] (some v)
        cache (some b) now).backend = some b ∧
    (handleStorageUpdate [.str "#storage", .str ns, .str key] (some v)
        cache (some b) now).cache =
      setQueryData cache [.str "#storage", .str ns, .str key] (some v) now ∧
    (∀ b' : Backend, b'.failingKeys.contains key = false →
      (handleStorageUpdate [.str "#storage", .str ns, .str key] (some v)
          cache (some b') now).logs = []) := by
  have hfail' : key ∈ b.failingKeys := by simpa using hfail
  refine ⟨?_, ?_, ?_, ?_, ?_, ?_⟩
  · cases v <;>
      simp [handleStorageUpdate, jsAsString, hns, handleStorageOperation,
        backendSet, backendDelete, hfail']
  · cases v <;>
      simp [handleStorageUpdate, jsAsString, hns, handleStorageOperation,
        backendSet, backendDelete, hfail']
  · cases v <;>
      simp [handleStorageUpdate, jsAsString, hns, handleStorageOperation,
        backendSet, backendDelete, hfail']
  · cases v <;>
      simp [handleStorageUpdate, jsAsString, hns, handleStorageOperation,
        backendSet, backendDelete, hfail']
  · cases v <;>
      simp [handleStorageUpdate, jsAsString, hns, handleStorageOperation,
        backendSet, backendDelete, hfail']
  · intro b' hok
    have hok' : ¬ key ∈ b'.failingKeys := by simpa using hok
    cases v <;>
      simp [handleStorageUpdate, jsAsString, hns, handleStorageOperation,
        backendSet, backendDelete, hok']

/-- Backend that throws on every write to `token`. -/
def faultyBackend : Backend :=
  { store := [("token", .str "old")], failingKeys := ["token"] }

/-- Cache holding just the mirrored entry for the async `token` key. -/
def mirroredTokenCache : List Query :=
  [{ queryHash := "hash-storage-token",
     queryKey := [.str "#storage", .str "async", .str "token"],
     state := { data := some (.str "old"), status := .success,
                fetchStatus := .idle, error := none, fetchMeta := none,
                isInvalidated := false, fetchFailureReason := none,
                dataUpdatedAt := 50 },
     options := sampleOptions, observers := [], meta := none }]

/-- Witness for C8 at a concrete input: the throwing write is caught, the
error line is logged, the backend stays untouched and the mirrored entry
receives the bare cache write. -/
theorem c8_storage_write_failure_fallback_witness :
    (handleStorageUpdate [.str "#storage", .str "async", .str "token"]
        (some (.str "abc123")) mirroredTokenCache (some faultyBackend) 7).handled = true ∧
    (handleStorageUpdate [.str "#storage", .str "async", .str "token"]
        (some (.str "abc123")) mirroredTokenCache (some faultyBackend) 7).logs =
      [⟨.error, "storage-update-failed:" ++ storageTypeName "async"⟩] ∧
    (handleStorageUpdate [.str "#storage", .str "async", .str "token"]
        (some (.str "abc123")) mirroredTokenCache (some faultyBackend) 7).effects = [] ∧
    (handleStorageUpdate [.str "#storage", .str "async", .str "token"]
        (some (.str "abc123")) mirroredTokenCache (some faultyBackend) 7).backend =
      some faultyBackend ∧
    (handleStorageUpdate [.str "#storage", .str "async", .str "token"]
        (some (.str "abc123")) mirroredTokenCache (some faultyBackend) 7).cache =
      setQueryData mirroredTokenCache [.str "#storage", .str "async", .str "token"]
        (some (.str "abc123")) 7 ∧
    (∀ b' : Backend, b'.failingKeys.contains "token" = false →
      (handleStorageUpdate [.str "#storage", .str "async", .str "token"]
          (some (.str "abc123")) mirroredTokenCache (some b') 7).logs = []) :=
  c8_storage_write_failure_fallback "async" "token" (.str "abc123")
    mirroredTokenCache faultyBackend 7 (by decide) (by decide)

theorem jsTrim_eq_empty_iff (s : String) :
    jsTrim s = "" ↔ ∀ c ∈ s.data, c.isWhitespace := by
  constructor
  · intro h
    have hl : ((s.data.dropWhile Char.isWhitespace).reverse.dropWhile
        Char.isWhitespace).reverse = [] := congrArg String.data h
    have hrev : (s.data.dropWhile Char.isWhitespace).reverse.dropWhile
        Char.isWhitespace = [] := by
      simpa using congrArg List.reverse hl
    have hdrop : ∀ c ∈ s.data.dropWhile Char.isWhitespace, c.isWhitespace := by
      intro c hc
      exact (List.dropWhile_eq_nil_iff.mp hrev) c (List.mem_reverse.mpr hc)
    intro c hc
    rw [← List.takeWhile_append_dropWhile (p := Char.isWhitespace)
      (l := s.data)] at hc
    rcases List.mem_append.mp hc with h1 | h2
    · exact List.mem_takeWhile_imp h1
    · exact hdrop c h2
  · intro h
    have hd : s.data.dropWhile Char.isWhitespace = [] :=
      List.dropWhile_eq_nil_iff.mpr h
    unfold jsTrim
    rw [hd]
    rfl

/-- C10: the hook throws exactly on a blank deviceId.  When `deviceId` is
undefined, empty, or all-whitespace, `useSyncQueriesExternal` raises the
validation error before the socket session or any event handler exists (the
embedding returns `.error` with no `HookSetup`); for any deviceId containing
a non-whitespace character this check passes and setup proceeds. -/
theorem c10_deviceid_validation (d : Option String) (url : String) :
    ((d = none ∨ ∃ s, d = some s ∧ ∀ c ∈ s.data, c.isWhitespace) →
      useSyncQueriesExternalInit d url =
        .error "deviceId is required and must not be empty") ∧
    ((∃ s, d = some s ∧ ∃ c ∈ s.data, ¬ c.isWhitespace) →
      useSyncQueriesExternalInit d url =
        .ok { connectedSocketURL := url, handlersRegistered := true }) := by
  constructor
  · rintro (rfl | ⟨s, rfl, hws⟩)
    · rfl
    · have h0 : jsTrim s = "" := (jsTrim_eq_empty_iff s).mpr hws
      simp [useSyncQueriesExternalInit, deviceIdIsValid, h0]
  · rintro ⟨s, rfl, c, hc, hnw⟩
    have h0 : jsTrim s ≠ "" := by
      intro he
      exact hnw ((jsTrim_eq_empty_iff s).mp he c hc)
    simp [useSyncQueriesExternalInit, deviceIdIsValid, h0]

/-- Witness for C10 at concrete inputs: an all-whitespace deviceId throws,
a real one passes the check. -/
theorem c10_deviceid_validation_witness :
    useSyncQueriesExternalInit (some "   ") "ws://localhost:42831" =
      .error "deviceId is required and must not be empty" ∧
    useSyncQueriesExternalInit (some " ios-1 ") "ws://localhost:42831" =
      .ok { connectedSocketURL := "ws://localhost:42831",
            handlersRegistered := true } :=
  ⟨(c10_deviceid_validation (some "   ") "ws://localhost:42831").1
      (Or.inr ⟨"   ", rfl, by decide⟩),
   (c10_deviceid_validation (some " ios-1 ") "ws://localhost:42831").2
      ⟨" ios-1 ", rfl, 'i', by decide, by decide⟩⟩

/-- Witness for the amended C9 statement at a concrete input: the settled
sample query ends the command pair pending/fetching with undefined data and
its original options restored. -/
theorem c9_loading_restore_amended_witness :
    (restoreLoading (triggerLoading sampleQuery)).state.status = .pending ∧
    (restoreLoading (triggerLoading sampleQuery)).state.data = none ∧
    (restoreLoading (triggerLoading sampleQuery)).state.fetchStatus = .fetching ∧
    (restoreLoading (triggerLoading sampleQuery)).state.fetchMeta = none ∧
    (restoreLoading (triggerLoading sampleQuery)).options = sampleQuery.options :=
  c9_loading_restore_amended sampleQuery
